import Mathlib

/-! Shallow embedding of `pi_nbiot/waveshare.py` (Waveshare SIM7080X NB-IoT HAT
driver).  The modem's serial channel is modelled by a response function
`Respond : String → List String` giving, for each command line written, the
list of trimmed non-empty lines read back after the settle delay.  Each
operation returns its result (`Except PyError ...`, mirroring the Python
exceptions raised) together with the ordered trace of channel I/O and
power-pin events it performed.  A raised exception leaves the object state
unchanged in the source (no mutation ever precedes a `raise`), so error
results carry no state.
-/

namespace PiNbiot

/-- Enum `DataService` (waveshare.py lines 16-38).  The source declares the
members with annotation syntax (`DUAL_PDN: 0` etc.); they are modelled as the
evident variants. -/
inductive DataService where
  | DUAL_PDN
  | IP_V4
  | IP_V6
  | NONIP
  | EX_NONIP
deriving DecidableEq

/-- Property `DataService.is_ip` (lines 34-38): false only for the two non-IP
services. -/
def DataService.is_ip : DataService → Bool
  | .NONIP => false
  | .EX_NONIP => false
  | _ => true

/-- The text `str(data_service)` interpolates into AT commands.  Python's
`str()` on an `Enum` member uses `Enum.__str__` ("ClassName.MEMBER"); the
overridden `__repr__` (wire tokens such as "IP") is not consulted by
`str()`. -/
def DataService.pyStr : DataService → String
  | .DUAL_PDN => "DataService.DUAL_PDN"
  | .IP_V4 => "DataService.IP_V4"
  | .IP_V6 => "DataService.IP_V6"
  | .NONIP => "DataService.NONIP"
  | .EX_NONIP => "DataService.EX_NONIP"

/-- Enum `AuthType` (lines 41-45). -/
inductive AuthType where
  | NONE
  | PAP
  | CHAP
  | PAP_CHAP
deriving DecidableEq

/-- Member values of `AuthType`. -/
def AuthType.value : AuthType → Nat
  | .NONE => 0
  | .PAP => 1
  | .CHAP => 2
  | .PAP_CHAP => 3

/-- Enum `PdpAction` (lines 68-71). -/
inductive PdpAction where
  | DEACTIVATE
  | ACTIVATE
  | AUTO_ACTIVATE
deriving DecidableEq

/-- Member values of `PdpAction`. -/
def PdpAction.value : PdpAction → Nat
  | .DEACTIVATE => 0
  | .ACTIVATE => 1
  | .AUTO_ACTIVATE => 2

/-- Class `PdpContext` (lines 48-65).  `username`/`password`/`auth` start as
`None` and are overwritten (with plain strings / an enum member) by
`pdp_context_configure`. -/
structure PdpContext where
  id : Nat
  apn : String
  data_service : DataService
  ip_address : Option String
  configured : Bool
  username : Option String
  password : Option String
  auth : Option AuthType
deriving DecidableEq

/-- Constructor `PdpContext.__init__`: fresh context with no address, not configured,
no credentials. -/
def PdpContext.mk0 (id : Nat) (apn : String) (data_service : DataService) :
    PdpContext :=
  ⟨id, apn, data_service, none, false, none, none, none⟩

/-- Property `PdpContext.is_ip` (lines 63-65). -/
def PdpContext.is_ip (c : PdpContext) : Bool :=
  c.data_service.is_ip

/-- The Python exception classes raised by the source. -/
inductive PyError where
  | valueError (msg : String)
  | runtimeError (msg : String)
  | systemError (msg : String)
  | syntaxError (msg : String)
  | fileNotFoundError (msg : String)
  | typeError (msg : String)
  | indexError
  | keyError
  | attributeError
deriving DecidableEq

/-- Observable side effects of an operation, in order: an AT command line
written via `at_command`, a raw `uart.write` of bytes, a `sleep` of the given
whole number of seconds between a raw write and the confirmation read, and a
power-pin pulse (`power_pin.blink`). -/
inductive Event where
  | cmd (s : String)
  | write (s : String)
  | sleepSec (n : ℤ)
  | power
deriving DecidableEq

/-- Mutable state of a `WaveshareNbiotHat` instance: `_ready`,
`_pdp_contexts` (dict keyed by context id), `_active_pdp_context`, and
`_mqtt_connected`. -/
structure HatState where
  ready : Option Bool
  contexts : Nat → Option PdpContext
  active : Option Nat
  mqttConnected : Bool

/-- Field `self._baudrate` (line 77). -/
def baudrate : Nat := 9600

/-- Constructor `WaveshareNbiotHat.__init__` (lines 76-84): empty registry, no active
context, ready unknown.  Note the source initializes `_mqtt_connected` to
`True`. -/
def initState : HatState :=
  ⟨none, fun _ => none, none, true⟩

/-- The modem script: response lines returned for each command written. -/
def Respond := String → List String

/-- Registry update: `self._pdp_contexts[i] = c` / field mutation of the
stored context object. -/
def HatState.setCtx (st : HatState) (i : Nat) (c : PdpContext) : HatState :=
  { st with contexts := fun j => if j = i then some c else st.contexts j }

/-- Whether the first list is an initial segment of the second. -/
def pyHeadMatch : List Char → List Char → Bool
  | [], _ => true
  | _ :: _, [] => false
  | a :: as, b :: bs => a = b && pyHeadMatch as bs

/-- Whether the needle occurs as a contiguous sublist of the haystack. -/
def pyFindSub (needle : List Char) : List Char → Bool
  | [] => needle.isEmpty
  | b :: bs => pyHeadMatch needle (b :: bs) || pyFindSub needle bs

/-- Python `needle in haystack` on strings (substring test). -/
def pyIn (needle hay : String) : Bool :=
  pyFindSub needle.data hay.data

/-- Python `hay.startswith(head)`. -/
def pyStartsWith (hay head : String) : Bool :=
  pyHeadMatch head.data hay.data

/-- Python `str.split` with a one-character separator: the chunks between
occurrences of the separator, in order, empty chunks included. -/
def pySplitChar (sep : Char) : List Char → List (List Char)
  | [] => [[]]
  | c :: cs =>
      match pySplitChar sep cs with
      | [] => [[]]
      | h :: t => if c = sep then [] :: h :: t else (c :: h) :: t

/-- Python `s.replace('"', '')`: drop every double-quote character. -/
def pyStripQuotes (s : String) : String :=
  ⟨s.data.filter (fun c => c ≠ '"')⟩

/-- Python truthiness of `self._active_pdp_context` (an `Optional[int]`):
`None` and `0` are both falsy, so an active context id of 0 is treated by
the guards as "no active context". -/
def pyTruthyActive : Option Nat → Bool
  | none => false
  | some n => n ≠ 0

/-- Method `disable_rf` (lines 139-146): returns success/failure rather than
raising. -/
def disable_rf (respond : Respond) : Bool × List Event :=
  let res := respond "AT+CFUN=0"
  if ¬ res.contains "OK" then (false, [.cmd "AT+CFUN=0"])
  else if ¬ res.contains "+CPIN: NOT READY" then (false, [.cmd "AT+CFUN=0"])
  else (true, [.cmd "AT+CFUN=0"])

/-- Method `enable_rf` (lines 148-155). -/
def enable_rf (respond : Respond) : Bool × List Event :=
  let res := respond "AT+CFUN=1"
  if ¬ res.contains "OK" then (false, [.cmd "AT+CFUN=1"])
  else if ¬ res.contains "+CPIN: READY" then (false, [.cmd "AT+CFUN=1"])
  else (true, [.cmd "AT+CFUN=1"])

/-- Tail of `pdp_context_define` (lines 181-183): the APN write-confirmation
probe.  The source never inserts the freshly defined context into
`self._pdp_contexts`, so the state is returned unchanged on success. -/
def defineConfirmApn (st : HatState) (respond : Respond) (id : Int)
    (apn : String) (t : List Event) : Except PyError HatState × List Event :=
  let res := respond "AT+GCNAPN"
  let t' := t ++ [Event.cmd "AT+GCNAPN"]
  if ¬ res.contains s!"+CGNAPN: {id},\"{apn}\"" then
    (.error (.valueError "Error"), t')
  else (.ok st, t')

/-- Method `pdp_context_define` (lines 157-183).  Validation happens before any
channel I/O; the `isinstance` checks cannot fail in this typed embedding. -/
def pdp_context_define (st : HatState) (respond : Respond) (id : Int)
    (apn : String) (data_service : DataService) :
    Except PyError HatState × List Event :=
  if ¬ (0 ≤ id ∧ id < 4) then
    (.error (.valueError "PDP context ID must be 0-3"), [])
  else if apn = "" then (.error (.valueError "Invalid apn name"), [])
  else
    let (rfOff, t0) := disable_rf respond
    if ¬ rfOff then (.error (.runtimeError "Could not disable RF"), t0)
    else
      let dss := data_service.pyStr
      let cmd := s!"AT+CGDCONT={id},\"{dss}\",\"{apn}\""
      let res := respond cmd
      let t1 := t0 ++ [Event.cmd cmd]
      if ¬ res.contains "OK" then (.error (.valueError "Error"), t1)
      else
        let (rfOn, te) := enable_rf respond
        let t2 := t1 ++ te
        if ¬ rfOn then (.error (.runtimeError "Could not enable RF"), t2)
        else if data_service.is_ip then
          let res2 := respond "AT+GCATT?"
          let t3 := t2 ++ [Event.cmd "AT+GCATT?"]
          if ¬ res2.contains "+CGATT: 1" then
            (.error (.systemError "Packet service not attached"), t3)
          else defineConfirmApn st respond id apn t3
        else defineConfirmApn st respond id apn t2

/-- Fallback `if not apn: apn = pdp_context.apn` — `None` and the empty string are
both falsy. -/
def orDefaultStr (o : Option String) (d : String) : String :=
  match o with
  | none => d
  | some s => if s = "" then d else s

/-- Base of the `AT+CNCFG` command (line 200). -/
def cncfgBase (id : Nat) (ds : DataService) (apn : String) : String :=
  let dss := ds.pyStr
  s!"AT+CNCFG={id},\"{dss}\",\"{apn}\""

/-- Construction of the configure command with its conditionally present
trailing fields (lines 200-208).  `++` mirrors the Python `+=` appends; an
`AuthType` member is always truthy (even `NONE`, value 0), so `if auth:`
is `auth ≠ None`. -/
def cncfgCommand (id : Nat) (ds : DataService) (apn username password : String)
    (auth : Option AuthType) : String :=
  let base := cncfgBase id ds apn
  let c1 :=
    if username ≠ "" then
      base ++ "," ++ username ++
        (if password ≠ "" then "," ++ password else "")
    else base
  match auth with
  | none => c1
  | some a =>
      (if username = "" ∧ password = "" then c1 ++ ",," else c1) ++
        "," ++ toString a.value

/-- Method `pdp_context_configure` (lines 185-215). -/
def pdp_context_configure (st : HatState) (respond : Respond) (id : Nat)
    (apn? : Option String) (ds? : Option DataService)
    (username password : String) (auth : Option AuthType) :
    Except PyError HatState × List Event :=
  match st.contexts id with
  | none => (.error (.valueError "PDP context ID not defined"), [])
  | some ctx =>
      let apn := orDefaultStr apn? ctx.apn
      let ds := ds?.getD ctx.data_service
      let cmd := cncfgCommand id ds apn username password auth
      let res := respond cmd
      if ¬ res.contains "OK" then (.error (.valueError "Error"), [.cmd cmd])
      else
        (.ok (st.setCtx id { ctx with
            username := some username
            password := some password
            auth := auth
            configured := true }), [.cmd cmd])

/-- Expression `line.split(',')[2].replace('"', '')` (lines 236-237); indexing a list
shorter than 3 raises `IndexError`. -/
def parseIpField (line : String) : Except PyError String :=
  let parts := pySplitChar ',' line.data
  match parts.get? 2 with
  | none => .error .indexError
  | some f => .ok (pyStripQuotes ⟨f⟩)

/-- The line head matched when scanning the `AT+CNACT?` table (line 235). -/
def cnactLineHead (id : Nat) : String :=
  s!"+CNACT: {id}"

/-- Method `pdp_context_activate` (lines 217-239).  A missing
`+APP PDP: id,NAME` confirmation line is only logged (line 227), never
raised, so the embedding does not branch on it. -/
def pdp_context_activate (st : HatState) (respond : Respond) (id : Nat)
    (action : PdpAction) : Except PyError HatState × List Event :=
  match st.contexts id with
  | none => (.error (.valueError "PDP context ID not defined"), [])
  | some ctx =>
      if ¬ ctx.configured then
        (.error (.valueError "PDP context ID not configured"), [])
      else
        let v := action.value
        let cmd := s!"AT+CNACT={id},{v}"
        let _res := respond cmd
        let t0 := [Event.cmd cmd]
        if ctx.is_ip then
          if action = .DEACTIVATE then
            (.ok { st.setCtx id { ctx with ip_address := none } with
                active := none }, t0)
          else
            let table := respond "AT+CNACT?"
            let t1 := t0 ++ [Event.cmd "AT+CNACT?"]
            match table.find? (fun l => pyStartsWith l (cnactLineHead id)) with
            | none => (.ok st, t1)
            | some line =>
                match parseIpField line with
                | .error e => (.error e, t1)
                | .ok ip =>
                    (.ok { st.setCtx id { ctx with ip_address := some ip } with
                        active := some id }, t1)
        else (.ok st, t0)

/-- The local filesystem: maps a path to the file's byte content when the
file exists. -/
def FileSys := String → Option String

/-- Command `AT+CFSWFILE` (line 247); the file size is the byte length of
the content. -/
def cfswfileCmd (flashname : String) (size : Nat) : String :=
  s!"AT+CFSWFILE=3,\"{flashname}\",0,{size},1000"

/-- Tail of `_put_file_in_flash` (lines 256-258): close the file buffer. -/
def cfsTerm (respond : Respond) (t : List Event) :
    Except PyError Unit × List Event :=
  let res := respond "AT+CFSTERM"
  let t' := t ++ [Event.cmd "AT+CFSTERM"]
  if ¬ res.contains "OK" then
    (.error (.systemError "Failed to close file buffer"), t')
  else (.ok (), t')

/-- Method `_put_file_in_flash` (lines 241-258).  `pending` models the bytes found
waiting on the channel after the raw write and sleep (`uart.in_waiting` /
`uart.read`); `none` means no bytes were waiting, in which case the
confirmation check is skipped by the source. -/
def _put_file_in_flash (fs : FileSys) (respond : Respond)
    (pending : Option String) (filename flashname : String) :
    Except PyError Unit × List Event :=
  let res := respond "AT+CFSINIT"
  let t0 := [Event.cmd "AT+CFSINIT"]
  if ¬ res.contains "OK" then
    (.error (.syntaxError "Could not initialize filesystem"), t0)
  else
    match fs filename with
    | none => (.error (.fileNotFoundError filename), t0)
    | some content =>
        let size := content.length
        let cmd := cfswfileCmd flashname size
        let res2 := respond cmd
        let t1 := t0 ++ [Event.cmd cmd]
        if ¬ res2.contains "DOWNLOAD" then
          (.error (.systemError "Error opening download"), t1)
        else
          let secs := (size * 8 : ℚ) / (baudrate : ℚ)
          let t2 := t1 ++ [Event.write content, Event.sleepSec ⌈secs⌉]
          match pending with
          | none => cfsTerm respond t2
          | some buf =>
              if ¬ pyIn "OK" buf then
                (.error (.systemError "Error downloading file"), t2)
              else cfsTerm respond t2

/-- Method `pdp_context_configure_ssl` (lines 260-291).  The three local-file
existence checks precede every other precondition and all channel I/O.
`pendings` supplies the post-write pending bytes for the three
`_put_file_in_flash` calls in order. -/
def pdp_context_configure_ssl (st : HatState) (fs : FileSys)
    (respond : Respond)
    (pendings : Option String × Option String × Option String)
    (ca_file cert_file key_file : String) :
    Except PyError Unit × List Event :=
  if fs ca_file = none then
    (.error (.fileNotFoundError "root CA not found"), [])
  else if fs cert_file = none then
    (.error (.fileNotFoundError "certificate not found"), [])
  else if fs key_file = none then
    (.error (.fileNotFoundError "key not found"), [])
  else if ¬ pyTruthyActive st.active then
    (.error (.systemError "No active PDP context"), [])
  else
    match st.active with
    | none => (.error .keyError, [])
    | some n =>
        match st.contexts n with
        | none => (.error .keyError, [])
        | some ctx =>
            if ctx.ip_address = none ∨ ctx.ip_address = some "" then
              (.error (.systemError "No valid IP address"), [])
            else
              let r := respond "AT+CCLK?"
              let t0 := [Event.cmd "AT+CCLK?"]
              if ¬ r.any (fun line => pyIn "+CCLK: \"" line) then
                (.error (.systemError "Time not synchronized"), t0)
              else
                let (o1, u1) := _put_file_in_flash fs respond pendings.1
                  ca_file "ca.crt"
                match o1 with
                | .error e => (.error e, t0 ++ u1)
                | .ok _ =>
                    let (o2, u2) := _put_file_in_flash fs respond pendings.2.1
                      cert_file "client.crt"
                    match o2 with
                    | .error e => (.error e, t0 ++ u1 ++ u2)
                    | .ok _ =>
                        let (o3, u3) := _put_file_in_flash fs respond
                          pendings.2.2 key_file "client.key"
                        match o3 with
                        | .error e => (.error e, t0 ++ u1 ++ u2 ++ u3)
                        | .ok _ =>
                            let c1 := "AT+CSSLCFG=\"CONVERT\",2,\"ca.crt\""
                            let r1 := respond c1
                            let t4 := t0 ++ u1 ++ u2 ++ u3 ++ [Event.cmd c1]
                            if ¬ r1.contains "OK" then
                              (.error (.systemError "Failed to configure CA cert"), t4)
                            else
                              let c2 := "AT+CSSLCFG=\"CONVERT\",1,\"client.crt\",\"client.key\""
                              let r2 := respond c2
                              let t5 := t4 ++ [Event.cmd c2]
                              if ¬ r2.contains "OK" then
                                (.error (.systemError "Failed to configure client/key"), t5)
                              else (.ok (), t5)

/-- Method `mqtt_connect` (lines 293-322).  With `ssl = True` the source calls
`self.pdp_context_configure_ssl()` without its three required positional
arguments, which raises `TypeError` before the connect command.  On a
successful connect confirmation the flag `_mqtt_connected` is assigned
`True`. -/
def mqtt_connect (st : HatState) (respond : Respond) (server_url : String)
    (server_port : Nat) (client_id : String) (keepalive : Nat) (ssl : Bool) :
    Except PyError HatState × List Event :=
  if ¬ pyTruthyActive st.active then
    (.error (.valueError "No valid PDP context"), [])
  else
    match st.active with
    | none => (.error .keyError, [])
    | some n =>
        match st.contexts n with
        | none => (.error .keyError, [])
        | some ctx =>
            if ctx.ip_address = none ∨ ctx.ip_address = some "" then
              (.error (.valueError "No valid IP address in context"), [])
            else
              let c1 := s!"AT+SMCONF=\"URL\",{server_url},{server_port}"
              let r1 := respond c1
              let t1 := [Event.cmd c1]
              if ¬ r1.contains "OK" then
                (.error (.systemError "Failed to configure MQTT server"), t1)
              else
                let c2 := s!"AT+SMCONF=\"KEEPTIME\",{keepalive}"
                let r2 := respond c2
                let t2 := t1 ++ [Event.cmd c2]
                if ¬ r2.contains "OK" then
                  (.error (.systemError "Failed to configure MQTT keepalive"), t2)
                else
                  let c3 := "AT+SMCONF=\"CLEANSS\",1"
                  let r3 := respond c3
                  let t3 := t2 ++ [Event.cmd c3]
                  if ¬ r3.contains "OK" then
                    (.error (.systemError "Failed to configure MQTT clean session"), t3)
                  else
                    let c4 := s!"AT+SMCONF=\"CLIENTID\",{client_id}"
                    let r4 := respond c4
                    let t4 := t3 ++ [Event.cmd c4]
                    if ¬ r4.contains "OK" then
                      (.error (.systemError "Failed to configure MQTT client ID"), t4)
                    else if ssl then
                      (.error (.typeError "pdp_context_configure_ssl missing required positional arguments"), t4)
                    else
                      let r5 := respond "AT+SMCONN"
                      let t5 := t4 ++ [Event.cmd "AT+SMCONN"]
                      if ¬ r5.contains "OK" then
                        (.error (.systemError "Failed to connect to MQTT broker"), t5)
                      else (.ok { st with mqttConnected := true }, t5)

/-- Command `AT+SMPUB` (line 348). -/
def smpubCmd (topic : String) (len qos retainInt : Nat) : String :=
  s!"AT+SMPUB=\"{topic}\",{len},{qos},{retainInt}"

/-- Method `mqtt_publish` (lines 341-356).  After the raw payload write and the
sleep, any pending bytes are read and `.encode()` is called on the returned
`bytes` object (line 354), which raises `AttributeError`; with no pending
bytes the confirmation check is skipped. -/
def mqtt_publish (respond : Respond) (pending : Option String)
    (topic payload : String) (qos : Nat) (retain : Bool) :
    Except PyError Unit × List Event :=
  let retainInt := if retain then 1 else 0
  let cmd := smpubCmd topic payload.length qos retainInt
  let res := respond cmd
  let t0 := [Event.cmd cmd]
  if ¬ res.contains ">" then
    (.error (.systemError "No prompt for MQTT payload"), t0)
  else
    let secs := (payload.length : ℚ) / (baudrate : ℚ)
    let t1 := t0 ++ [Event.write payload, Event.sleepSec ⌈secs⌉]
    match pending with
    | none => (.ok (), t1)
    | some _ => (.error .attributeError, t1)

/-- The bounded retry loop inside `initialize` (lines 106-113), by fuel on
the remaining attempts. -/
def initLoop (respond : Respond) : Nat → Bool × List Event
  | 0 => (false, [])
  | n + 1 =>
      let res := respond "AT"
      if res.contains "OK" then (true, [.cmd "AT"])
      else
        let (b, t) := initLoop respond n
        (b, .cmd "AT" :: .power :: t)

/-- Method `initialize` (lines 103-115): probe/power-cycle loop, then record the
outcome in `_ready`. -/
def initModem (st : HatState) (respond : Respond) (max_attempts : Nat) :
    Bool × HatState × List Event :=
  let (responsive, t) := initLoop respond max_attempts
  (responsive, { st with ready := some responsive }, t)

/-- The `ready` property (lines 117-121): when `_ready` is `None`, reading
the property itself runs `initialize()` (default 3 attempts). -/
def ready_read (st : HatState) (respond : Respond) :
    Option Bool × HatState × List Event :=
  match st.ready with
  | none =>
      let r := initModem st respond 3
      (r.2.1.ready, r.2.1, r.2.2)
  | some b => (some b, st, [])

end PiNbiot

namespace PiNbiot

/-- Value `math.ceil` of the exact quotient of two naturals equals the usual
natural-number ceiling division. -/
lemma rat_ceil_nat_div (a b : ℕ) (hb : 0 < b) :
    ⌈(a : ℚ) / (b : ℚ)⌉ = (((a + b - 1) / b : ℕ) : ℤ) := by
  have hbQ : (0 : ℚ) < (b : ℚ) := by exact_mod_cast hb
  rcases Nat.eq_zero_or_pos a with ha | ha
  · subst ha
    simp [Nat.div_eq_of_lt (by omega : b - 1 < b)]
  · have hN : (a + b - 1) / b = (a - 1) / b + 1 := by
      have hrw : a + b - 1 = (a - 1) + b := by omega
      rw [hrw, Nat.add_div_right _ hb]
    have hdm := Nat.div_add_mod (a - 1) b
    have hml := Nat.mod_lt (a - 1) hb
    set k := (a - 1) / b with hk
    have hlb : b * k < a := by omega
    have hub : a ≤ b * k + b := by omega
    have hlbQ : (b : ℚ) * (k : ℚ) < (a : ℚ) := by exact_mod_cast hlb
    have hubQ : (a : ℚ) ≤ (b : ℚ) * (k : ℚ) + (b : ℚ) := by exact_mod_cast hub
    rw [hN, Int.ceil_eq_iff]
    constructor
    · push_cast
      rw [lt_div_iff₀ hbQ]
      nlinarith [hlbQ]
    · push_cast
      rw [div_le_iff₀ hbQ]
      nlinarith [hubQ]

/-- A successful `pdp_context_define` leaves the registry state exactly as
it was: the source validates, talks to the modem, and returns without ever
storing the new context. -/
lemma define_ok_eq (st : HatState) (respond : Respond) (id : Int)
    (apn : String) (ds : DataService) (st' : HatState)
    (h : (pdp_context_define st respond id apn ds).1 = .ok st') : st' = st := by
  unfold pdp_context_define defineConfirmApn at h
  repeat' (first | split at h | simp_all)

/-- A successful `pdp_context_configure` stores the credentials and the
configured flag on the matched context and changes nothing else. -/
lemma configure_ok (st : HatState) (respond : Respond) (id : Nat)
    (apn? : Option String) (ds? : Option DataService) (u p : String)
    (a : Option AuthType) (st' : HatState)
    (h : (pdp_context_configure st respond id apn? ds? u p a).1 = .ok st') :
    ∃ ctx, st.contexts id = some ctx ∧
      st' = st.setCtx id { ctx with
        username := some u
        password := some p
        auth := a
        configured := true } := by
  unfold pdp_context_configure at h
  split at h
  · simp at h
  · rename_i ctx hctx
    simp only [] at h
    split at h
    · simp at h
    · refine ⟨ctx, hctx, ?_⟩
      simp only [Except.ok.injEq] at h
      exact h.symm

/-- The three possible outcomes of a successful `pdp_context_activate`: a
no-op, a deactivation (address and active pointer both cleared), or an
activation that stores a parsed address and the active pointer together. -/
lemma activate_ok (st : HatState) (respond : Respond) (id : Nat)
    (act : PdpAction) (st' : HatState)
    (h : (pdp_context_activate st respond id act).1 = .ok st') :
    st' = st
    ∨ (∃ ctx, st.contexts id = some ctx ∧
        st' = { st.setCtx id { ctx with ip_address := none } with
          active := none })
    ∨ (∃ ctx ip, st.contexts id = some ctx ∧ ctx.is_ip = true ∧
        st' = { st.setCtx id { ctx with ip_address := some ip } with
          active := some id }) := by
  unfold pdp_context_activate at h
  split at h
  · simp at h
  · rename_i ctx hctx
    split at h
    · simp at h
    · simp only [] at h
      split at h
      · rename_i hisip
        split at h
        · simp only [Except.ok.injEq] at h
          exact Or.inr (Or.inl ⟨ctx, hctx, h.symm⟩)
        · split at h
          · simp only [Except.ok.injEq] at h
            exact Or.inl h.symm
          · split at h
            · simp at h
            · rename_i ip hip
              simp only [Except.ok.injEq] at h
              exact Or.inr (Or.inr ⟨ctx, ip, hctx, hisip, h.symm⟩)
      · simp only [Except.ok.injEq] at h
        exact Or.inl h.symm

end PiNbiot

namespace PiNbiot

/-- A modem script that satisfies every confirmation point of the C1 round
trip for context 0 with APN "ciot". -/
def okRespond : Respond := fun c =>
  if c = "AT+CFUN=0" then ["OK", "+CPIN: NOT READY"]
  else if c = "AT+CFUN=1" then ["OK", "+CPIN: READY"]
  else if c = "AT+GCATT?" then ["+CGATT: 1"]
  else if c = "AT+GCNAPN" then ["+CGNAPN: 0,\"ciot\""]
  else if c = "AT+CNACT?" then ["+CNACT: 0,1,\"10.0.0.5\""]
  else ["OK"]

/-- A modem that answers nothing. -/
def silentRespond : Respond := fun _ => []

/-- A modem whose only non-OK answer is an error on the connect command. -/
def connFailRespond : Respond := fun c =>
  if c = "AT+SMCONN" then ["ERROR"] else ["OK"]

/-- Context 1 as it stands after a successful configure and activate. -/
def ctxActive1 : PdpContext :=
  ⟨1, "ciot", .IP_V4, some "10.0.0.5", true, some "", some "", none⟩

/-- Registry with context 1 defined, configured and active. -/
def stActive1 : HatState :=
  ⟨none, fun j => if j = 1 then some ctxActive1 else none, some 1, true⟩

/-- Claim C1: the round-trip scenario `define(0, "ciot", IPv4)` →
`configure(0)` → `activate(0, Activate)` cannot complete: the source's
`pdp_context_define` never stores the new context in `_pdp_contexts`, so
even with a modem script that satisfies every confirmation (including the
table line `+CNACT: 0,1,"10.0.0.5"`), `define` succeeds with the registry
still empty and `configure(0)` then raises
`ValueError: PDP context ID 0 not defined`; the scenario never reaches
activation, contradicting the claimed final state. -/
theorem c1_roundtrip_fails_at_configure :
    (pdp_context_define initState okRespond 0 "ciot" DataService.IP_V4).1
        = .ok initState
    ∧ initState.contexts 0 = none
    ∧ (pdp_context_configure initState okRespond 0 none none "" "" none).1
        = .error (.valueError "PDP context ID not defined") :=
  ⟨rfl, rfl, rfl⟩

/-- Claim C2: the session's connected flag is already `true` before any
connect is attempted — `__init__` sets `_mqtt_connected = True` — so after
a connect whose confirmation token is absent (the call does raise), the
flag reads `true`, not unset/false as claimed. -/
theorem c2_connected_flag_true_after_failed_connect :
    initState.mqttConnected = true
    ∧ (mqtt_connect stActive1 connFailRespond "url" 1883 "cid" 60 false).1
        = .error (.systemError "Failed to connect to MQTT broker")
    ∧ stActive1.mqttConnected = true :=
  ⟨rfl, rfl, rfl⟩

/-- Claim C6: `define` with an id outside `[0,3]` or an empty APN fails with
a `ValueError` (the spec's ValidationError) and performs no channel or
power I/O at all: the returned event trace is empty. -/
theorem c6_define_validates_before_io (st : HatState) (respond : Respond)
    (id : Int) (apn : String) (ds : DataService)
    (h : ¬ (0 ≤ id ∧ id < 4) ∨ apn = "") :
    (∃ msg, (pdp_context_define st respond id apn ds).1
        = .error (.valueError msg))
    ∧ (pdp_context_define st respond id apn ds).2 = [] := by
  unfold pdp_context_define
  rcases h with h | h
  · rw [if_pos h]
    exact ⟨⟨_, rfl⟩, rfl⟩
  · by_cases h1 : ¬ (0 ≤ id ∧ id < 4)
    · rw [if_pos h1]
      exact ⟨⟨_, rfl⟩, rfl⟩
    · rw [if_neg h1, if_pos h]
      exact ⟨⟨_, rfl⟩, rfl⟩

/-- Witness for C6 at the concrete invalid input `id = 5`. -/
theorem c6_define_validates_before_io_witness :
    (∃ msg, (pdp_context_define initState silentRespond 5 "x"
        DataService.IP_V4).1 = .error (.valueError msg))
    ∧ (pdp_context_define initState silentRespond 5 "x"
        DataService.IP_V4).2 = [] :=
  c6_define_validates_before_io initState silentRespond 5 "x"
    DataService.IP_V4 (Or.inl (by decide))

/-- Claim C7: when any of the three credential files is absent locally,
secure provisioning fails with `FileNotFoundError` (the spec's
ResourceError) and performs no modem I/O at all — in particular the
filesystem-init command `AT+CFSINIT` is never issued, since the event trace
is empty. -/
theorem c7_ssl_aborts_before_any_io (st : HatState) (fs : FileSys)
    (respond : Respond) (ps : Option String × Option String × Option String)
    (ca cert key : String)
    (h : fs ca = none ∨ fs cert = none ∨ fs key = none) :
    (∃ msg, (pdp_context_configure_ssl st fs respond ps ca cert key).1
        = .error (.fileNotFoundError msg))
    ∧ (pdp_context_configure_ssl st fs respond ps ca cert key).2 = [] := by
  unfold pdp_context_configure_ssl
  by_cases h1 : fs ca = none
  · rw [if_pos h1]
    exact ⟨⟨_, rfl⟩, rfl⟩
  · rw [if_neg h1]
    by_cases h2 : fs cert = none
    · rw [if_pos h2]
      exact ⟨⟨_, rfl⟩, rfl⟩
    · rw [if_neg h2]
      have h3 : fs key = none := by tauto
      rw [if_pos h3]
      exact ⟨⟨_, rfl⟩, rfl⟩

/-- A local filesystem with no files at all. -/
def emptyFs : FileSys := fun _ => none

/-- Witness for C7: with no local files, provisioning aborts with
`FileNotFoundError` and an empty I/O trace. -/
theorem c7_ssl_aborts_before_any_io_witness :
    (∃ msg, (pdp_context_configure_ssl stActive1 emptyFs silentRespond
        (none, none, none) "ca.pem" "cert.pem" "key.pem").1
        = .error (.fileNotFoundError msg))
    ∧ (pdp_context_configure_ssl stActive1 emptyFs silentRespond
        (none, none, none) "ca.pem" "cert.pem" "key.pem").2 = [] :=
  c7_ssl_aborts_before_any_io stActive1 emptyFs silentRespond
    (none, none, none) "ca.pem" "cert.pem" "key.pem" (Or.inl rfl)

end PiNbiot

namespace PiNbiot

/-- Context 0 as it stands while active: configured, holding an address. -/
def ctx0Active : PdpContext :=
  ⟨0, "ciot", .IP_V4, some "10.0.0.5", true, some "", some "", none⟩

/-- Context 1: IP-capable and configured, not active, no address. -/
def ctx1Conf : PdpContext :=
  ⟨1, "apn2", .IP_V4, none, true, some "", some "", none⟩

/-- Registry where context 0 is the active one and context 1 is merely
configured. -/
def stTwoCtx : HatState :=
  ⟨none, fun j => if j = 0 then some ctx0Active
    else if j = 1 then some ctx1Conf else none, some 0, true⟩

/-- Claim C3 counterexample: with the active pointer referencing context 0,
deactivating context 1 still clears the pointer — the source assigns
`self._active_pdp_context = None` unconditionally — contradicting "clears
the registry's active-context pointer only if the pointer referenced that
context". -/
theorem c3_counterexample :
    stTwoCtx.active = some 0
    ∧ (pdp_context_activate stTwoCtx silentRespond 1 .DEACTIVATE).1.map
        HatState.active = .ok none :=
  ⟨rfl, rfl⟩

/-- Claim C3 amended: `activate(id, Deactivate)` on an IP-capable configured
context clears that context's `ipAddress` and clears the registry's active
pointer unconditionally — even when the pointer references a different
context — while every other context's registry entry is left unchanged. -/
theorem c3_deactivate_effect (st : HatState) (respond : Respond) (id : Nat)
    (ctx : PdpContext) (hctx : st.contexts id = some ctx)
    (hconf : ctx.configured = true) (hip : ctx.is_ip = true) :
    (pdp_context_activate st respond id .DEACTIVATE).1
      = .ok { st.setCtx id { ctx with ip_address := none } with
          active := none }
    ∧ ∀ j, j ≠ id →
        ({ st.setCtx id { ctx with ip_address := none } with
            active := none } : HatState).contexts j = st.contexts j := by
  constructor
  · unfold pdp_context_activate
    rw [hctx]
    simp [hconf, hip]
  · intro j hj
    simp [HatState.setCtx, hj]

/-- Witness for C3's amended theorem at a concrete two-context registry:
deactivating context 1 clears pointer and address, and context 0's entry is
untouched. -/
theorem c3_deactivate_effect_witness :
    (pdp_context_activate stTwoCtx silentRespond 1 .DEACTIVATE).1
      = .ok { stTwoCtx.setCtx 1 { ctx1Conf with ip_address := none } with
          active := none }
    ∧ ({ stTwoCtx.setCtx 1 { ctx1Conf with ip_address := none } with
          active := none } : HatState).contexts 0 = stTwoCtx.contexts 0 :=
  ⟨(c3_deactivate_effect stTwoCtx silentRespond 1 ctx1Conf rfl rfl rfl).1,
   (c3_deactivate_effect stTwoCtx silentRespond 1 ctx1Conf rfl rfl rfl).2
     0 (by decide)⟩

/-- A registry state with `ready` already known. -/
def stReadyKnown : HatState :=
  ⟨some true, fun _ => none, none, true⟩

/-- Claim C9 counterexample: in the unknown ready state, merely reading the
`ready` property performs I/O — it issues the liveness probe command and
pulses the power line — because the property getter calls `initialize()`
when `_ready is None`. -/
theorem c9_counterexample :
    initState.ready = none
    ∧ Event.cmd "AT" ∈ (ready_read initState silentRespond).2.2
    ∧ Event.power ∈ (ready_read initState silentRespond).2.2 := by
  refine ⟨rfl, ?_, ?_⟩ <;> decide

/-- Claim C9 amended: the ready state is set only by an initialize attempt
sequence, and reading it performs no probing, no commands and no power
pulses when the state is known (true or false); but when the state is
unknown, the read itself triggers a full initialize attempt sequence. -/
theorem c9_ready_read_effect (st : HatState) (respond : Respond) :
    (∀ b, st.ready = some b → ready_read st respond = (some b, st, []))
    ∧ (st.ready = none →
        ready_read st respond
          = ((initModem st respond 3).2.1.ready, (initModem st respond 3).2.1,
             (initModem st respond 3).2.2)) := by
  constructor
  · intro b hb
    unfold ready_read
    rw [hb]
  · intro hn
    unfold ready_read
    rw [hn]

/-- Witness for C9's amended theorem: with ready known true, the read
returns it with no events. -/
theorem c9_ready_read_effect_witness :
    ready_read stReadyKnown silentRespond = (some true, stReadyKnown, []) :=
  (c9_ready_read_effect stReadyKnown silentRespond).1 true rfl

/-- Claim C10: activating a configured IP-capable context when no line of
the live context table matches this context id completes without any error
and leaves the whole registry state unchanged — the context's address stays
null and the active pointer is untouched. -/
theorem c10_activate_no_match_is_noop (st : HatState) (respond : Respond)
    (id : Nat) (ctx : PdpContext) (hctx : st.contexts id = some ctx)
    (hconf : ctx.configured = true) (hip : ctx.is_ip = true)
    (hnone : ∀ line ∈ respond "AT+CNACT?",
        pyStartsWith line (cnactLineHead id) = false) :
    (pdp_context_activate st respond id .ACTIVATE).1 = .ok st := by
  unfold pdp_context_activate
  rw [hctx]
  have hfind : (respond "AT+CNACT?").find?
      (fun l => pyStartsWith l (cnactLineHead id)) = none :=
    List.find?_eq_none.mpr (fun l hl => by simp [hnone l hl])
  simp [hconf, hip, hfind]

/-- Context 2, IP-capable and configured, no address yet. -/
def ctx2Conf : PdpContext :=
  ⟨2, "apnw", .IP_V4, none, true, none, none, none⟩

/-- Registry holding only the configured context 2, nothing active. -/
def stCtx2 : HatState :=
  ⟨none, fun j => if j = 2 then some ctx2Conf else none, none, true⟩

/-- A modem whose context table holds no matching line. -/
def junkRespond : Respond := fun _ => ["junk"]

/-- Witness for C10: activating context 2 against a table with no matching
row returns the state unchanged and raises nothing. -/
theorem c10_activate_no_match_is_noop_witness :
    (pdp_context_activate stCtx2 junkRespond 2 .ACTIVATE).1 = .ok stCtx2 :=
  c10_activate_no_match_is_noop stCtx2 junkRespond 2 ctx2Conf rfl rfl rfl
    (by decide)

end PiNbiot

namespace PiNbiot

/-- The registry invariant exactly as claimed: a context's `ipAddress` is
non-null iff that context is the active one and is IP-capable. -/
def claimedInvariant (st : HatState) : Prop :=
  ∀ i ctx, st.contexts i = some ctx →
    (ctx.ip_address ≠ none ↔ st.active = some i ∧ ctx.is_ip = true)

/-- The half of the invariant the code actually maintains: whenever a
context is active it is IP-capable and holds a non-null address. -/
def activeInvariant (st : HatState) : Prop :=
  ∀ i, st.active = some i → ∃ ctx, st.contexts i = some ctx ∧
    ctx.is_ip = true ∧ ctx.ip_address ≠ none

/-- A modem whose context table reports an address for context 1. -/
def tableRespond1 : Respond := fun c =>
  if c = "AT+CNACT?" then ["+CNACT: 1,1,\"10.0.0.6\""] else ["OK"]

/-- The registry after activating context 1 from `stTwoCtx`. -/
def stTwoCtxPost : HatState :=
  { stTwoCtx.setCtx 1 { ctx1Conf with ip_address := some "10.0.0.6" } with
    active := some 1 }

/-- Claim C4 counterexample: starting from a registry satisfying the claimed
invariant (context 0 active with an address, context 1 configured), one
`activate(1, Activate)` yields a state that violates it: context 1 becomes
active but context 0 keeps its now-stale non-null `ipAddress` — the source
never clears the previously active context's address. -/
theorem c4_counterexample :
    claimedInvariant stTwoCtx
    ∧ (pdp_context_activate stTwoCtx tableRespond1 1 .ACTIVATE).1
        = .ok stTwoCtxPost
    ∧ ¬ claimedInvariant stTwoCtxPost := by
  refine ⟨?_, ?_, ?_⟩
  · intro i ctx h
    by_cases h0 : i = 0
    · subst h0
      simp [stTwoCtx] at h
      subst h
      decide
    · by_cases h1 : i = 1
      · subst h1
        simp [stTwoCtx] at h
        subst h
        decide
      · simp [stTwoCtx, h0, h1] at h
  · rfl
  · intro hinv
    have h0 : stTwoCtxPost.contexts 0 = some ctx0Active := rfl
    have h := (hinv 0 ctx0Active h0).mp (by decide)
    have ha : stTwoCtxPost.active = some 1 := rfl
    rw [ha] at h
    exact absurd h.1 (by decide)

end PiNbiot

namespace PiNbiot

/-- Claim C4 amended: at most one context is active at a time (the registry
tracks a single optional `activeContextId`), and after every successful
context-manager operation the forward half of the invariant holds: the
active context, when set, is IP-capable with a non-null `ipAddress`.  The
converse half of the claimed iff is not maintained: a context that stops
being the active one can retain a stale non-null address (see the
counterexample). -/
theorem c4_active_invariant_preserved (st : HatState) (respond : Respond)
    (hinv : activeInvariant st) :
    (∀ id apn ds st',
        (pdp_context_define st respond id apn ds).1 = .ok st' →
        activeInvariant st')
    ∧ (∀ id apn? ds? u p a st',
        (pdp_context_configure st respond id apn? ds? u p a).1 = .ok st' →
        activeInvariant st')
    ∧ (∀ id act st',
        (pdp_context_activate st respond id act).1 = .ok st' →
        activeInvariant st') := by
  refine ⟨?_, ?_, ?_⟩
  · intro id apn ds st' h
    rw [define_ok_eq st respond id apn ds st' h]
    exact hinv
  · intro id apn? ds? u p a st' h
    obtain ⟨ctx, hctx, hst'⟩ := configure_ok st respond id apn? ds? u p a st' h
    subst hst'
    intro i hi
    replace hi : st.active = some i := hi
    obtain ⟨ctx0, hc0, hip0, haddr0⟩ := hinv i hi
    by_cases hid : i = id
    · subst hid
      rw [hctx] at hc0
      injection hc0 with hc0
      subst hc0
      refine ⟨{ ctx with
          username := some u
          password := some p
          auth := a
          configured := true }, ?_, ?_, ?_⟩
      · simp [HatState.setCtx]
      · exact hip0
      · exact haddr0
    · refine ⟨ctx0, ?_, hip0, haddr0⟩
      simp [HatState.setCtx, if_neg hid, hc0]
  · intro id act st' h
    rcases activate_ok st respond id act st' h with hst' | ⟨ctx, hctx, hst'⟩ |
        ⟨ctx, ip, hctx, hip, hst'⟩
    · rw [hst']
      exact hinv
    · subst hst'
      intro i hi
      replace hi : (none : Option Nat) = some i := hi
      exact absurd hi (by simp)
    · subst hst'
      intro i hi
      replace hi : (some id : Option Nat) = some i := hi
      have hii : i = id := by
        injection hi with hi
        exact hi.symm
      subst hii
      refine ⟨{ ctx with ip_address := some ip }, ?_, ?_, ?_⟩
      · simp [HatState.setCtx]
      · exact hip
      · simp

/-- Witness for C4's amended theorem at a concrete state and operation: the
state reached by deactivating context 1 of `stTwoCtx` satisfies the
maintained invariant half. -/
theorem c4_active_invariant_preserved_witness :
    activeInvariant { stTwoCtx.setCtx 1 { ctx1Conf with ip_address := none }
        with active := none } :=
  (c4_active_invariant_preserved stTwoCtx silentRespond
    (by
      intro i hi
      have h : (some 0 : Option Nat) = some i := hi
      have h0 : i = 0 := by
        injection h with h
        exact h.symm
      subst h0
      exact ⟨ctx0Active, rfl, rfl, by decide⟩)).2.2
    1 .DEACTIVATE _ rfl

end PiNbiot

namespace PiNbiot

/-- Claim C5: the configure command's trailing optional fields are shaped
exactly as claimed: username only → `,username`; username and password →
`,username,password`; an auth method with neither credential → `,,,<code>`;
none of the three → no trailing optional fields at all. -/
theorem c5_configure_command_shape (id : Nat) (ds : DataService)
    (apn username password : String) (auth : Option AuthType) :
    (username ≠ "" → password = "" → auth = none →
      cncfgCommand id ds apn username password auth
        = cncfgBase id ds apn ++ "," ++ username)
    ∧ (username ≠ "" → password ≠ "" → auth = none →
      cncfgCommand id ds apn username password auth
        = cncfgBase id ds apn ++ "," ++ username ++ "," ++ password)
    ∧ (∀ a, auth = some a → username = "" → password = "" →
      cncfgCommand id ds apn username password auth
        = cncfgBase id ds apn ++ ",,," ++ toString a.value)
    ∧ (username = "" → password = "" → auth = none →
      cncfgCommand id ds apn username password auth
        = cncfgBase id ds apn) := by
  refine ⟨?_, ?_, ?_, ?_⟩
  · intro hu hp ha
    subst hp
    subst ha
    simp [cncfgCommand, hu]
  · intro hu hp ha
    subst ha
    simp [cncfgCommand, hu, hp, String.append_assoc]
  · intro a ha hu hp
    subst ha
    subst hu
    subst hp
    simp only [cncfgCommand]
    norm_num
    rw [String.append_assoc (cncfgBase id ds apn)]
    rfl
  · intro hu hp ha
    subst hu
    subst hp
    subst ha
    simp [cncfgCommand]

/-- Witness for C5 at concrete field values, exercising the username-only
case. -/
theorem c5_configure_command_shape_witness :
    cncfgCommand 0 DataService.IP_V4 "ciot" "user" "" none
      = cncfgBase 0 DataService.IP_V4 "ciot" ++ "," ++ "user" :=
  (c5_configure_command_shape 0 DataService.IP_V4 "ciot" "user" "" none).1
    (by decide) rfl rfl

/-- Claim C8: for a publish of a payload of length `L` at bit rate `R`
(9600), the emitted post-write wait is `⌈L / R⌉` seconds, and for a file
upload of `size` bytes it is `⌈size * 8 / R⌉` seconds; both equal the
natural-number ceiling divisions of the claim. -/
theorem c8_tx_wait (respond : Respond) (p1 p2 : Option String)
    (topic payload : String) (qos : Nat) (retain : Bool)
    (fs : FileSys) (filename flashname content : String)
    (hprompt : (respond (smpubCmd topic payload.length qos
        (if retain then 1 else 0))).contains ">" = true)
    (hinit : (respond "AT+CFSINIT").contains "OK" = true)
    (hfile : fs filename = some content)
    (hdl : (respond (cfswfileCmd flashname content.length)).contains
        "DOWNLOAD" = true) :
    Event.sleepSec ⌈(payload.length : ℚ) / (baudrate : ℚ)⌉
        ∈ (mqtt_publish respond p1 topic payload qos retain).2
    ∧ ⌈(payload.length : ℚ) / (baudrate : ℚ)⌉
        = (((payload.length + baudrate - 1) / baudrate : ℕ) : ℤ)
    ∧ Event.sleepSec ⌈(content.length * 8 : ℚ) / (baudrate : ℚ)⌉
        ∈ (_put_file_in_flash fs respond p2 filename flashname).2
    ∧ ⌈(content.length * 8 : ℚ) / (baudrate : ℚ)⌉
        = (((content.length * 8 + baudrate - 1) / baudrate : ℕ) : ℤ) := by
  refine ⟨?_, rat_ceil_nat_div payload.length baudrate (by norm_num [baudrate]),
    ?_, ?_⟩
  · unfold mqtt_publish
    simp only [hprompt]
    cases p1 <;> simp
  · unfold _put_file_in_flash cfsTerm
    simp only [hinit, hfile, hdl]
    cases p2 <;> split_ifs <;> simp_all
    all_goals (split <;> simp)
  · have h := rat_ceil_nat_div (content.length * 8) baudrate
      (by norm_num [baudrate])
    push_cast at h ⊢
    exact h

end PiNbiot

namespace PiNbiot

/-- A one-file local filesystem holding five bytes at path "key". -/
def fsOne : FileSys := fun p => if p = "key" then some "hello" else none

/-- A modem script for the C8 witness: acknowledges the filesystem commands
and prompts for everything else. -/
def c8Respond : Respond := fun c =>
  if c = "AT+CFSINIT" then ["OK"]
  else if c = cfswfileCmd "client.key" 5 then ["DOWNLOAD"]
  else [">"]

/-- Witness for C8 at a five-byte payload and a five-byte file. -/
theorem c8_tx_wait_witness :
    Event.sleepSec ⌈((("hello" : String).length : ℚ)) / (baudrate : ℚ)⌉
        ∈ (mqtt_publish c8Respond none "t" "hello" 0 false).2
    ∧ ⌈((("hello" : String).length : ℚ)) / (baudrate : ℚ)⌉
        = (((("hello" : String).length + baudrate - 1) / baudrate : ℕ) : ℤ)
    ∧ Event.sleepSec ⌈((("hello" : String).length * 8 : ℚ)) / (baudrate : ℚ)⌉
        ∈ (_put_file_in_flash fsOne c8Respond none "key" "client.key").2
    ∧ ⌈((("hello" : String).length * 8 : ℚ)) / (baudrate : ℚ)⌉
        = (((("hello" : String).length * 8 + baudrate - 1) / baudrate : ℕ) : ℤ) :=
  c8_tx_wait c8Respond none none "t" "hello" 0 false fsOne "key" "client.key"
    "hello" rfl rfl rfl rfl

end PiNbiot
